import Mathlib

/-
Verification of merge_files.py: a shallow embedding of the file-merging
utility (load_data, combine_and_save_files, robust_read_file) together with
proofs of the specified properties.

Python strings are modelled by Lean String (a list of Unicode code points);
the Python string methods used by the program (str.lower, str.strip,
str.startswith, str.endswith, sorted() on strings) are embedded below as
functions over String.data.  The pandas DataFrame is modelled as a list of
column names plus a list of rows; the pandas / csv readers, os.path.exists
and os.path.isfile are oracle parameters, since their outcome depends on
the state of the file system.
-/

-- ===== Python string primitives =====

/-- Model of Python str.lower (ASCII case folding, as Char.toLower). -/
def pyLower (s : String) : String :=
  String.mk (s.data.map Char.toLower)

/-- Model of Python str.strip(): drop whitespace from both ends. -/
def pyStrip (s : String) : String :=
  String.mk (((s.data.dropWhile Char.isWhitespace).reverse.dropWhile
    Char.isWhitespace).reverse)

/-- Model of Python str.startswith. -/
def pyStartsWith (s p : String) : Bool :=
  p.data.isPrefixOf s.data

/-- Model of Python str.endswith. -/
def pyEndsWith (s suf : String) : Bool :=
  suf.data.isSuffixOf s.data

/-- Lexicographic order on code-point sequences, as Python compares
strings. -/
def lexLe : List Char → List Char → Bool
  | [], _ => true
  | _ :: _, [] => false
  | a :: as, b :: bs =>
    if a.toNat < b.toNat then true
    else if b.toNat < a.toNat then false
    else lexLe as bs

/-- The string order used by Python sorted() on file names. -/
def pyStrLe (a b : String) : Prop :=
  lexLe a.data b.data = true

instance pyStrLe.decRel : DecidableRel pyStrLe :=
  fun a b => instDecidableEqBool (lexLe a.data b.data) true

theorem lexLe_total : ∀ xs ys : List Char, lexLe xs ys = true ∨ lexLe ys xs = true
  | [], _ => Or.inl rfl
  | _ :: _, [] => Or.inr rfl
  | a :: as, b :: bs => by
    by_cases hab : a.toNat < b.toNat
    · left
      simp [lexLe, hab]
    · by_cases hba : b.toNat < a.toNat
      · right
        simp [lexLe, hba]
      · have h := lexLe_total as bs
        rcases h with h | h
        · left
          simp [lexLe, hab, hba, h]
        · right
          simp [lexLe, hab, hba, h]

theorem lexLe_trans : ∀ xs ys zs : List Char,
    lexLe xs ys = true → lexLe ys zs = true → lexLe xs zs = true
  | [], _, zs => by intro _ _; cases zs <;> rfl
  | _ :: _, [], _ => by intro h _; simp [lexLe] at h
  | _ :: _, _ :: _, [] => by intro _ h; simp [lexLe] at h
  | a :: as, b :: bs, c :: cs => by
    intro h1 h2
    simp only [lexLe] at h1 h2 ⊢
    by_cases hab : a.toNat < b.toNat <;> by_cases hbc : b.toNat < c.toNat
    · have hac : a.toNat < c.toNat := by omega
      simp [hac]
    · simp only [hbc, if_false] at h2
      by_cases hcb : c.toNat < b.toNat
      · simp [hcb] at h2
      · have hac : a.toNat < c.toNat := by omega
        simp [hac]
    · simp only [hab, if_false] at h1
      by_cases hba : b.toNat < a.toNat
      · simp [hba] at h1
      · have hac : a.toNat < c.toNat := by omega
        simp [hac]
    · simp only [hab, if_false] at h1
      simp only [hbc, if_false] at h2
      by_cases hba : b.toNat < a.toNat
      · simp [hba] at h1
      · by_cases hcb : c.toNat < b.toNat
        · simp [hcb] at h2
        · have hac : ¬ a.toNat < c.toNat := by omega
          have hca : ¬ c.toNat < a.toNat := by omega
          simp only [hba, if_false] at h1
          simp only [hcb, if_false] at h2
          simp [hac, hca, lexLe_trans as bs cs h1 h2]

instance : IsTotal String pyStrLe :=
  ⟨fun a b => lexLe_total a.data b.data⟩

instance : IsTrans String pyStrLe :=
  ⟨fun a b c => lexLe_trans a.data b.data c.data⟩

/-- Model of Python sorted() on a list of strings. -/
def pySorted (names : List String) : List String :=
  List.insertionSort pyStrLe names

-- ===== Char.toLower facts (needed for pyLower) =====

theorem char_toNat_ofNat_valid (n : Nat) (h : n.isValidChar) :
    (Char.ofNat n).toNat = n := by
  simp [Char.ofNat, h, Char.ofNatAux, Char.toNat, UInt32.toNat]

theorem toLower_not_upper (c : Char) :
    ¬((Char.toLower c).toNat ≥ 65 ∧ (Char.toLower c).toNat ≤ 90) := by
  unfold Char.toLower
  by_cases h : c.toNat ≥ 65 ∧ c.toNat ≤ 90
  · rw [if_pos h]
    have hv : (c.toNat + 32).isValidChar := by left; omega
    rw [char_toNat_ofNat_valid _ hv]
    omega
  · rw [if_neg h]
    exact h

theorem toLower_eq_self (c : Char) (h : ¬(c.toNat ≥ 65 ∧ c.toNat ≤ 90)) :
    Char.toLower c = c := by
  unfold Char.toLower
  rw [if_neg h]

theorem toLower_idem (c : Char) :
    Char.toLower (Char.toLower c) = Char.toLower c :=
  toLower_eq_self _ (toLower_not_upper c)

theorem string_data_eq {s t : String} (h : s.data = t.data) : s = t := by
  cases s
  cases t
  exact congrArg String.mk h

theorem pyLower_append (s t : String) :
    pyLower (s ++ t) = pyLower s ++ pyLower t := by
  apply string_data_eq
  simp [pyLower, String.data_append]

theorem pyLower_idem (s : String) : pyLower (pyLower s) = pyLower s := by
  apply string_data_eq
  simp only [pyLower, List.map_map]
  exact List.map_congr_left fun c _ => toLower_idem c

theorem pyEndsWith_append_self (s t : String) :
    pyEndsWith (s ++ t) t = true := by
  unfold pyEndsWith
  rw [List.isSuffixOf_iff_suffix, String.data_append]
  exact List.suffix_append _ _

-- ===== File-name extension (os.path.splitext) =====

/-- Index of the last occurrence of a dot in a character list
(Python str.rfind used by os.path.splitext). -/
def lastDotIdx (cs : List Char) : Option Nat :=
  (cs.foldl
    (fun (p : Nat × Option Nat) c =>
      (p.1 + 1, if c == '.' then some p.1 else p.2))
    (0, none)).2

/-- The extension part of os.path.splitext(name) for a bare file name
(as returned by os.listdir, so it contains no path separator):
everything from the last dot on, unless every character before that
dot is itself a dot (then the extension is empty, e.g. for dotfiles). -/
def fileExt (name : String) : String :=
  match lastDotIdx name.data with
  | none => ""
  | some i =>
    if (name.data.take i).all (fun c => c == '.') then ""
    else String.mk (name.data.drop i)

-- ===== load_data file discovery (merge_files.py lines 173-193) =====

/-- The allowed extensions of load_data (merge_files.py line 173). -/
def allowed : List String := [".csv", ".txt", ".xls", ".xlsx"]

/-- The candidate file list collected by load_data (lines 184-190):
iterate over sorted(os.listdir(data_dir)) and keep the regular files
whose lowercased extension is allowed and whose name starts with
neither a tilde-dollar temp marker nor a dot.  `names` is the raw
os.listdir result and `isFile` the os.path.isfile oracle. -/
def load_data_files (names : List String) (isFile : String → Bool) : List String :=
  (pySorted names).filter fun fname =>
    isFile fname &&
      (allowed.contains (pyLower (fileExt fname)) &&
        (!pyStartsWith fname "~$" && !pyStartsWith fname "."))

/-- The discovery phase of load_data (lines 184-193): if the candidate
list is empty the function prints a message and returns None, otherwise
it proceeds with the collected list. -/
def load_data_discovery (names : List String) (isFile : String → Bool) :
    Option (List String) :=
  let files := load_data_files names isFile
  if files.isEmpty then none else some files

-- ===== DataFrame model and robust_read_file (lines 33-69) =====

/-- A pandas DataFrame: a list of column names and a list of rows. -/
structure DataFrame where
  cols : List String
  rows : List (List String)
deriving DecidableEq

/-- The maximum row length of a parsed row list
(merge_files.py line 66: maxlen = max(len(r) for r in rows)). -/
def maxRowLen (rows : List (List String)) : Nat :=
  rows.foldl (fun m r => max m r.length) 0

/-- The DataFrame built by the csv.reader fallback of robust_read_file
(lines 64-69): empty input gives an empty frame; otherwise every row is
padded on the right with empty strings up to the maximum row length and
the columns are named col_1 .. col_N. -/
def fallbackFrame (rows : List (List String)) : DataFrame :=
  if rows.isEmpty then { cols := [], rows := [] }
  else
    { cols := (List.range (maxRowLen rows)).map (fun i => "col_" ++ toString (i + 1)),
      rows := rows.map (fun r => r ++ List.replicate (maxRowLen rows - r.length) "") }

/-- robust_read_file (lines 33-69).  The pandas read attempt and the
csv.reader parse are oracles (their outcome depends on the file):
if pandas succeeds its frame is returned; on a pandas exception the
csv.reader rows are normalized by fallbackFrame; if even csv.reader
raises, a RuntimeError is raised. -/
def robust_read_file (pandasRead : Except String DataFrame)
    (csvRows : Except String (List (List String))) : Except String DataFrame :=
  match pandasRead with
  | Except.ok df => Except.ok df
  | Except.error _ =>
    match csvRows with
    | Except.error e => Except.error ("Failed to read file: " ++ e)
    | Except.ok rows => Except.ok (fallbackFrame rows)

-- ===== Delimiter sniffing (lines 100-115, 286-296) =====

/-- The byte sample handed to csv.Sniffer: the first 8192 bytes of the
file (fh.read(8192)). -/
def sampleOf (content : List Nat) : List Nat :=
  content.take 8192

/-- Delimiter selection on the merge path (combine_and_save_files lines
100-115): sniff the sample; if csv.Sniffer raises, use no explicit
delimiter (None, i.e. pandas inference).  The sniffer is an oracle over
the byte sample. -/
def sniffDelimiterMerge (content : List Nat)
    (sniffer : List Nat → Except String Char) : Option Char :=
  match sniffer (sampleOf content) with
  | Except.ok d => some d
  | Except.error _ => none

/-- Delimiter selection on the single-file load path (load_data lines
286-296): sniff the sample; if csv.Sniffer raises, fall back to a comma
delimiter. -/
def sniffDelimiterLoad (content : List Nat)
    (sniffer : List Nat → Except String Char) : Char :=
  match sniffer (sampleOf content) with
  | Except.ok d => d
  | Except.error _ => ','

-- ===== combine_and_save_files (lines 72-169) =====

/-- Model of posixpath.join for two operands, as used by
os.path.join(data_dir, fname). -/
def osPathJoin (a b : String) : String :=
  if pyStartsWith b "/" then b
  else if a = "" || pyEndsWith a "/" then a ++ b
  else a ++ "/" ++ b

/-- Output-name normalization of combine_and_save_files (lines 78-83):
lowercase the extension, strip the entered name, default a blank name to
merged plus the extension, and append the extension unless the name
already ends with it case-insensitively. -/
def normalizeOutName (extChoice rawName : String) : String :=
  let ext := pyLower extChoice
  let out0 := pyStrip rawName
  let out1 := if out0 = "" then "merged" ++ ext else out0
  if pyEndsWith (pyLower out1) ext then out1 else out1 ++ ext

/-- The normalized form of a yes/no answer read from input():
.strip().lower() as on lines 86. -/
def ansNorm (s : String) : String :=
  pyLower (pyStrip s)

/-- The answers accepted as confirmation on line 87. -/
def yesAnswers : List String := ["y", "yes"]

/-- The inputs of one call of combine_and_save_files.  File-system
dependent behaviour is an oracle: pathExists is os.path.exists, readFile
the per-file reader of the loop body (robust_read_file with the sniffed
delimiter on the csv/txt branch, pd.read_excel on the Excel branch), and
openOk whether open(fp) succeeds, which decides whether the
show_problem_lines call in the csv/txt except handler (lines 123 and 13)
completes or itself raises.  The two branches differ here: the Excel
handler (lines 143-146) has no show_problem_lines call and always
continues. -/
structure CombineInput where
  dataDir : String
  extChoice : String
  candidates : List String
  outNameRaw : String
  overwriteAns : String
  pathExists : String → Bool
  readFile : String → Except String DataFrame
  openOk : String → Bool

/-- The observable outcome of combine_and_save_files: the returned value,
the written output file (path and merged frame) if any, and the list of
candidate files the loop attempted to read. -/
structure CombineResult where
  ret : Option String
  written : Option (String × DataFrame)
  readsAttempted : List String
deriving DecidableEq

/-- The output path out_path of line 84. -/
def outPathOf (inp : CombineInput) : String :=
  osPathJoin inp.dataDir (normalizeOutName inp.extChoice inp.outNameRaw)

/-- The overwrite guard of lines 85-89: the output path exists and the
stripped, lowercased answer is neither y nor yes. -/
def overwriteAborts (inp : CombineInput) : Bool :=
  inp.pathExists (outPathOf inp) && !(yesAnswers.contains (ansNorm inp.overwriteAns))

/-- The branch test of line 96: ext_choice (already lowercased on line
78) in (".csv", ".txt") selects the csv/txt branch, anything else falls
to the Excel branch. -/
def isTextBranch (inp : CombineInput) : Bool :=
  [".csv", ".txt"].contains (pyLower inp.extChoice)

/-- How the read loop ends: it either processes every candidate,
accumulating read_success and dfs, or it is cut short when a per-file
except handler itself raises, recording the candidates attempted up to
that point. -/
inductive LoopOutcome where
  | completed (readSuccess : List String) (dfs : List DataFrame)
  | aborted (attempted : List String)
deriving DecidableEq

/-- Whether processing candidate f ends the whole loop: the read raises
and, on the csv/txt branch, the handler calls show_problem_lines (line
123), whose unguarded open (line 13) raises because the file cannot be
opened; that exception escapes to the outer handler (line 163).  The
Excel handler never raises. -/
def readAborts (read : String → Except String DataFrame) (openOk : String → Bool)
    (textBranch : Bool) (dir f : String) : Bool :=
  match read (osPathJoin dir f) with
  | Except.ok _ => false
  | Except.error _ => textBranch && !openOk (osPathJoin dir f)

/-- The read loop (lines 97-124 / 137-146): on a successful read the
file name and frame are appended; on an exception the handler runs and
the file is skipped, unless the handler itself raises (readAborts), which
ends the loop through the outer except of line 163. -/
def readLoopGo (read : String → Except String DataFrame) (openOk : String → Bool)
    (textBranch : Bool) (dir : String) :
    List String → List String → List DataFrame → List String → LoopOutcome
  | _, ns, ds, [] => LoopOutcome.completed ns ds
  | done, ns, ds, f :: fs =>
    match read (osPathJoin dir f) with
    | Except.ok df =>
      readLoopGo read openOk textBranch dir (done ++ [f]) (ns ++ [f]) (ds ++ [df]) fs
    | Except.error _ =>
      if textBranch && !openOk (osPathJoin dir f) then
        LoopOutcome.aborted (done ++ [f])
      else
        readLoopGo read openOk textBranch dir (done ++ [f]) ns ds fs

/-- The names of the candidates whose read succeeds, in candidate order. -/
def successNames (read : String → Except String DataFrame) (dir : String)
    (candidates : List String) : List String :=
  candidates.filter (fun f => (read (osPathJoin dir f)).toOption.isSome)

/-- The frames of the candidates whose read succeeds, in candidate order. -/
def successFrames (read : String → Except String DataFrame) (dir : String)
    (candidates : List String) : List DataFrame :=
  candidates.filterMap (fun f => (read (osPathJoin dir f)).toOption)

/-- pd.concat(dfs, ignore_index=True, sort=False) (lines 134, 154): the
row blocks are stacked in input order and the columns are the union in
order of first appearance. -/
def concatFrames (dfs : List DataFrame) : DataFrame :=
  { cols := dfs.foldl (fun acc d => acc ++ d.cols.filter (fun c => !(acc.contains c))) [],
    rows := (dfs.map (fun d => d.rows)).flatten }

/-- The tail of combine_and_save_files after the read loop: an aborted
loop falls into the outer except (line 163) and returns None with nothing
written; a completed loop with no readable file aborts the merge (lines
126-132 / 147-153); otherwise the frames are concatenated, written to the
output path and the path is returned (lines 134-135 / 154-162). -/
def finishMerge (inp : CombineInput) : LoopOutcome → CombineResult
  | LoopOutcome.aborted attempted =>
    { ret := none, written := none, readsAttempted := attempted }
  | LoopOutcome.completed _ ds =>
    if ds.isEmpty then
      { ret := none, written := none, readsAttempted := inp.candidates }
    else
      { ret := some (outPathOf inp),
        written := some (outPathOf inp, concatFrames ds),
        readsAttempted := inp.candidates }

/-- combine_and_save_files (lines 72-169): compute the output path; abort
when the path exists and the user refuses to overwrite; run the read loop
over the candidates and finish as finishMerge describes. -/
def combine_and_save_files (inp : CombineInput) : CombineResult :=
  if overwriteAborts inp then
    { ret := none, written := none, readsAttempted := [] }
  else
    finishMerge inp
      (readLoopGo inp.readFile inp.openOk (isTextBranch inp) inp.dataDir
        [] [] [] inp.candidates)

-- ===== Helper lemmas =====

theorem foldl_max_init_le (l : List (List String)) :
    ∀ a : Nat, a ≤ l.foldl (fun m r => max m r.length) a := by
  induction l with
  | nil => intro a; exact Nat.le_refl a
  | cons x xs ih =>
    intro a
    have h1 : a ≤ max a x.length := Nat.le_max_left _ _
    exact Nat.le_trans h1 (ih (max a x.length))

theorem length_le_foldl_max {r : List String} {l : List (List String)}
    (h : r ∈ l) : ∀ a : Nat, r.length ≤ l.foldl (fun m r => max m r.length) a := by
  induction l with
  | nil => cases h
  | cons x xs ih =>
    intro a
    simp only [List.foldl_cons]
    rcases List.mem_cons.mp h with h1 | h1
    · subst h1
      have h2 : r.length ≤ max a r.length := Nat.le_max_right _ _
      exact Nat.le_trans h2 (foldl_max_init_le xs _)
    · exact ih h1 (max a x.length)

theorem length_le_maxRowLen {r : List String} {rows : List (List String)}
    (h : r ∈ rows) : r.length ≤ maxRowLen rows :=
  length_le_foldl_max h 0

theorem readLoopGo_no_abort (read : String → Except String DataFrame)
    (openOk : String → Bool) (tb : Bool) (dir : String) :
    ∀ (l done ns : List String) (ds : List DataFrame),
      (∀ f ∈ l, readAborts read openOk tb dir f = false) →
      readLoopGo read openOk tb dir done ns ds l =
        LoopOutcome.completed (ns ++ successNames read dir l)
          (ds ++ successFrames read dir l) := by
  intro l
  induction l with
  | nil =>
    intro done ns ds _
    simp [readLoopGo, successNames, successFrames]
  | cons f fs ih =>
    intro done ns ds hno
    have hf := hno f (List.mem_cons_self f fs)
    have htail : ∀ g ∈ fs, readAborts read openOk tb dir g = false :=
      fun g hg => hno g (List.mem_cons_of_mem f hg)
    cases hread : read (osPathJoin dir f) with
    | ok df =>
      have hstep : readLoopGo read openOk tb dir done ns ds (f :: fs) =
          readLoopGo read openOk tb dir (done ++ [f]) (ns ++ [f]) (ds ++ [df]) fs := by
        simp [readLoopGo, hread]
      rw [hstep, ih _ _ _ htail]
      simp [successNames, successFrames, hread, Except.toOption,
        List.filter_cons, List.filterMap_cons, List.append_assoc]
    | error e =>
      have habort : (tb && !openOk (osPathJoin dir f)) = false := by
        simpa [readAborts, hread] using hf
      have hstep : readLoopGo read openOk tb dir done ns ds (f :: fs) =
          readLoopGo read openOk tb dir (done ++ [f]) ns ds fs := by
        simp [readLoopGo, hread, habort]
      rw [hstep, ih _ _ _ htail]
      simp [successNames, successFrames, hread, Except.toOption,
        List.filter_cons, List.filterMap_cons]

theorem readLoopGo_completed (read : String → Except String DataFrame)
    (openOk : String → Bool) (tb : Bool) (dir : String) :
    ∀ (l done ns : List String) (ds : List DataFrame) (ns2 : List String)
      (ds2 : List DataFrame),
      readLoopGo read openOk tb dir done ns ds l = LoopOutcome.completed ns2 ds2 →
      ns2 = ns ++ successNames read dir l ∧ ds2 = ds ++ successFrames read dir l := by
  intro l
  induction l with
  | nil =>
    intro done ns ds ns2 ds2 h
    simp only [readLoopGo] at h
    injection h with h1 h2
    subst h1
    subst h2
    simp [successNames, successFrames]
  | cons f fs ih =>
    intro done ns ds ns2 ds2 h
    cases hread : read (osPathJoin dir f) with
    | ok df =>
      have hstep : readLoopGo read openOk tb dir done ns ds (f :: fs) =
          readLoopGo read openOk tb dir (done ++ [f]) (ns ++ [f]) (ds ++ [df]) fs := by
        simp [readLoopGo, hread]
      rw [hstep] at h
      obtain ⟨h1, h2⟩ := ih _ _ _ _ _ h
      constructor
      · rw [h1]
        simp [successNames, hread, Except.toOption, List.filter_cons,
          List.append_assoc]
      · rw [h2]
        simp [successFrames, hread, Except.toOption, List.filterMap_cons,
          List.append_assoc]
    | error e =>
      cases habort : (tb && !openOk (osPathJoin dir f)) with
      | true =>
        have hstep : readLoopGo read openOk tb dir done ns ds (f :: fs) =
            LoopOutcome.aborted (done ++ [f]) := by
          simp [readLoopGo, hread, habort]
        rw [hstep] at h
        exact LoopOutcome.noConfusion h
      | false =>
        have hstep : readLoopGo read openOk tb dir done ns ds (f :: fs) =
            readLoopGo read openOk tb dir (done ++ [f]) ns ds fs := by
          simp [readLoopGo, hread, habort]
        rw [hstep] at h
        obtain ⟨h1, h2⟩ := ih _ _ _ _ _ h
        constructor
        · rw [h1]
          simp [successNames, hread, Except.toOption, List.filter_cons]
        · rw [h2]
          simp [successFrames, hread, Except.toOption, List.filterMap_cons]

theorem combine_eq_abort (inp : CombineInput) (h : overwriteAborts inp = true) :
    combine_and_save_files inp =
      { ret := none, written := none, readsAttempted := [] } := by
  unfold combine_and_save_files
  rw [if_pos h]

theorem combine_no_abort (inp : CombineInput) (h : overwriteAborts inp = false) :
    combine_and_save_files inp =
      finishMerge inp
        (readLoopGo inp.readFile inp.openOk (isTextBranch inp) inp.dataDir
          [] [] [] inp.candidates) := by
  unfold combine_and_save_files
  rw [if_neg (by simp [h])]

-- ===== Claims =====

/-- C4: when the pandas read raises and robust_read_file falls back to
csv.reader, malformed rows are recovered by padding: for every non-empty
list of parsed rows the fallback frame is returned, every row of it has
length equal to the maximum row length, shorter rows are extended with
empty strings on the right, and the columns are named col_1 .. col_N for
N the maximum row length. -/
theorem claim_C4 (pe : String) (rows : List (List String)) (h : rows ≠ []) :
    robust_read_file (Except.error pe) (Except.ok rows) =
      Except.ok (fallbackFrame rows) ∧
    (∀ r ∈ (fallbackFrame rows).rows, r.length = maxRowLen rows) ∧
    (fallbackFrame rows).rows =
      rows.map (fun r => r ++ List.replicate (maxRowLen rows - r.length) "") ∧
    (fallbackFrame rows).cols =
      (List.range (maxRowLen rows)).map (fun i => "col_" ++ toString (i + 1)) := by
  have hne : rows.isEmpty = false := by
    cases rows with
    | nil => cases h rfl
    | cons x xs => rfl
  refine ⟨rfl, ?_, ?_, ?_⟩
  · intro r hr
    simp only [fallbackFrame, hne, Bool.false_eq_true, if_false, List.mem_map] at hr
    obtain ⟨a, ha, rfl⟩ := hr
    have hle : a.length ≤ maxRowLen rows := length_le_maxRowLen ha
    simp only [List.length_append, List.length_replicate]
    omega
  · simp [fallbackFrame, hne]
  · simp [fallbackFrame, hne]

theorem claim_C4_witness :
    ([["a"], ["b", "c"]] : List (List String)) ≠ [] ∧
    (∀ r ∈ (fallbackFrame [["a"], ["b", "c"]]).rows,
      r.length = maxRowLen [["a"], ["b", "c"]]) :=
  ⟨by decide, (claim_C4 "pandas ParserError" [["a"], ["b", "c"]] (by decide)).2.1⟩

/-- C5: delimiter detection reads a byte sample of the file (the first
8192 bytes) and falls back gracefully when csv.Sniffer raises on the
sample: the merge path proceeds with no explicit delimiter and the
single-file load path proceeds with a comma, instead of propagating the
sniffing error. -/
theorem claim_C5 (content : List Nat) (sniffer : List Nat → Except String Char)
    (e : String) (h : sniffer (sampleOf content) = Except.error e) :
    sampleOf content = content.take 8192 ∧
    sniffDelimiterMerge content sniffer = none ∧
    sniffDelimiterLoad content sniffer = ',' := by
  refine ⟨rfl, ?_, ?_⟩
  · simp [sniffDelimiterMerge, h]
  · simp [sniffDelimiterLoad, h]

theorem claim_C5_witness :
    sniffDelimiterMerge [65, 66, 67]
        (fun _ => Except.error "Could not determine delimiter") = none ∧
    sniffDelimiterLoad [65, 66, 67]
        (fun _ => Except.error "Could not determine delimiter") = ',' := by
  have h := claim_C5 [65, 66, 67]
    (fun _ => Except.error "Could not determine delimiter")
    "Could not determine delimiter" rfl
  exact ⟨h.2.1, h.2.2⟩

/-- Inversion of a successful merge: a written output means the overwrite
guard passed, the frame is the concatenation of the successfully read
frames, the path is the computed output path, every candidate was
attempted and the same path is returned. -/
theorem combine_written_inv (inp : CombineInput) (p : String) (m : DataFrame)
    (h : (combine_and_save_files inp).written = some (p, m)) :
    overwriteAborts inp = false ∧
    m = concatFrames (successFrames inp.readFile inp.dataDir inp.candidates) ∧
    p = outPathOf inp ∧
    (combine_and_save_files inp).readsAttempted = inp.candidates ∧
    (combine_and_save_files inp).ret = some (outPathOf inp) := by
  by_cases hab : overwriteAborts inp = true
  · rw [combine_eq_abort inp hab] at h
    cases h
  · have hab2 : overwriteAborts inp = false := by
      cases hv : overwriteAborts inp
      · rfl
      · exact absurd hv hab
    have hc := combine_no_abort inp hab2
    cases hout : readLoopGo inp.readFile inp.openOk (isTextBranch inp) inp.dataDir
        [] [] [] inp.candidates with
    | aborted att =>
      rw [hc, hout] at h
      simp [finishMerge] at h
    | completed ns ds =>
      obtain ⟨h1, h2⟩ := readLoopGo_completed _ _ _ _ _ _ _ _ _ _ hout
      simp only [List.nil_append] at h1 h2
      rw [hc, hout] at h
      by_cases hds : ds.isEmpty = true
      · simp [finishMerge, hds] at h
      · have hds2 : ds.isEmpty = false := by
          cases hv : ds.isEmpty
          · rfl
          · exact absurd hv hds
        simp only [finishMerge, hds2, Bool.false_eq_true, if_false,
          Option.some.injEq, Prod.mk.injEq] at h
        refine ⟨hab2, by rw [← h.2, h2], h.1.symm, ?_, ?_⟩
        · rw [hc, hout]
          simp [finishMerge, hds2]
        · rw [hc, hout]
          simp [finishMerge, hds2]

/-- Concrete input refuting C2 as stated: a csv merge whose first
candidate cannot even be opened (openOk false there), while the second
candidate reads perfectly. -/
def inpC2x : CombineInput :=
  { dataDir := "/data", extChoice := ".csv", candidates := ["a.csv", "b.csv"],
    outNameRaw := "out", overwriteAns := "",
    pathExists := fun _ => false,
    readFile := fun p =>
      if p = "/data/b.csv" then Except.ok { cols := ["c1"], rows := [["1"]] }
      else Except.error "RuntimeError: Failed to read file",
    openOk := fun p => !(p == "/data/a.csv") }

/-- C2 counterexample: the claim as stated fails on the code.  On the
csv/txt branch, when a candidate cannot be opened, robust_read_file
raises and the except handler's show_problem_lines call (line 123)
re-opens the file unguarded (line 13) and raises again; the outer handler
(line 163) then aborts the whole merge.  Here the second candidate reads
successfully, yet it is never attempted and no merged result is
produced. -/
theorem claim_C2_counterexample :
    overwriteAborts inpC2x = false ∧
    (inpC2x.readFile (osPathJoin inpC2x.dataDir "b.csv")).toOption.isSome = true ∧
    (combine_and_save_files inpC2x).readsAttempted = ["a.csv"] ∧
    (combine_and_save_files inpC2x).readsAttempted ≠ inpC2x.candidates ∧
    (combine_and_save_files inpC2x).written = none ∧
    (combine_and_save_files inpC2x).ret = none := by
  decide

/-- C2 (amended): a failure to read a candidate is caught and the file
skipped, and the loop continues with the remaining candidates, provided
the per-file except handler itself completes; when no handler raise occurs
(readAborts false for every candidate, which always holds on the Excel
branch), every candidate is attempted and any merged result that is
written is built from exactly the candidates whose read succeeded, in
candidate order, no matter how many earlier reads failed. -/
theorem claim_C2 (inp : CombineInput) (h : overwriteAborts inp = false)
    (hno : ∀ f ∈ inp.candidates,
      readAborts inp.readFile inp.openOk (isTextBranch inp) inp.dataDir f = false) :
    (combine_and_save_files inp).readsAttempted = inp.candidates ∧
    ∀ p m, (combine_and_save_files inp).written = some (p, m) →
      m = concatFrames (successFrames inp.readFile inp.dataDir inp.candidates) := by
  have hout := readLoopGo_no_abort inp.readFile inp.openOk (isTextBranch inp)
    inp.dataDir inp.candidates [] [] [] hno
  rw [combine_no_abort inp h, hout]
  simp only [List.nil_append]
  by_cases hds : (successFrames inp.readFile inp.dataDir inp.candidates).isEmpty = true
  · constructor
    · simp [finishMerge, hds]
    · intro p m hw
      simp [finishMerge, hds] at hw
  · have hds2 : (successFrames inp.readFile inp.dataDir inp.candidates).isEmpty = false := by
      cases hv : (successFrames inp.readFile inp.dataDir inp.candidates).isEmpty
      · rfl
      · exact absurd hv hds
    constructor
    · simp [finishMerge, hds2]
    · intro p m hw
      simp only [finishMerge, hds2, Bool.false_eq_true, if_false,
        Option.some.injEq, Prod.mk.injEq] at hw
      exact hw.2.symm

/-- The frame used by the C2 witness. -/
def dfC2 : DataFrame := { cols := ["c1"], rows := [["1"], ["2"]] }

/-- Concrete input for the C2 witness: the first candidate fails to read
(but stays openable, so the handler completes), the second succeeds. -/
def inpC2 : CombineInput :=
  { dataDir := "/data", extChoice := ".csv", candidates := ["a.csv", "b.csv"],
    outNameRaw := "out", overwriteAns := "",
    pathExists := fun _ => false,
    readFile := fun p =>
      if p = "/data/b.csv" then Except.ok dfC2 else Except.error "ParserError",
    openOk := fun _ => true }

theorem claim_C2_witness :
    (combine_and_save_files inpC2).readsAttempted = ["a.csv", "b.csv"] ∧
    dfC2 = concatFrames (successFrames inpC2.readFile inpC2.dataDir inpC2.candidates) := by
  have h := claim_C2 inpC2 (by decide) (by decide)
  exact ⟨h.1, h.2 "/data/out.csv" dfC2 (by decide)⟩

/-- C3: if no candidate file can be read successfully (every per-file
read raises), combine_and_save_files aborts the merge, returns None and
writes no output file. -/
theorem claim_C3 (inp : CombineInput)
    (h : ∀ f ∈ inp.candidates,
      ∃ e, inp.readFile (osPathJoin inp.dataDir f) = Except.error e) :
    (combine_and_save_files inp).ret = none ∧
    (combine_and_save_files inp).written = none := by
  have hsf : successFrames inp.readFile inp.dataDir inp.candidates = [] := by
    unfold successFrames
    apply List.filterMap_eq_nil_iff.mpr
    intro f hf
    obtain ⟨e, he⟩ := h f hf
    simp [he, Except.toOption]
  by_cases hab : overwriteAborts inp = true
  · rw [combine_eq_abort inp hab]
    exact ⟨rfl, rfl⟩
  · have hab2 : overwriteAborts inp = false := by
      cases hv : overwriteAborts inp
      · rfl
      · exact absurd hv hab
    rw [combine_no_abort inp hab2]
    cases hout : readLoopGo inp.readFile inp.openOk (isTextBranch inp) inp.dataDir
        [] [] [] inp.candidates with
    | aborted att =>
      exact ⟨rfl, rfl⟩
    | completed ns ds =>
      obtain ⟨h1, h2⟩ := readLoopGo_completed _ _ _ _ _ _ _ _ _ _ hout
      simp only [List.nil_append, hsf] at h2
      subst h2
      exact ⟨rfl, rfl⟩

/-- Concrete input for the C3 witness: the only candidate fails. -/
def inpC3 : CombineInput :=
  { dataDir := "/data", extChoice := ".csv", candidates := ["a.csv"],
    outNameRaw := "", overwriteAns := "",
    pathExists := fun _ => false,
    readFile := fun _ => Except.error "bad utf8",
    openOk := fun _ => true }

theorem claim_C3_witness :
    (combine_and_save_files inpC3).ret = none ∧
    (combine_and_save_files inpC3).written = none :=
  claim_C3 inpC3 (fun _ _ => ⟨"bad utf8", rfl⟩)

/-- C6: concatenation merges the readable files into one table: any
merged frame that is written stacks the row blocks of the successfully
read frames in candidate order, so its row count is the sum of their
row counts. -/
theorem claim_C6 (inp : CombineInput) (p : String) (m : DataFrame)
    (h : (combine_and_save_files inp).written = some (p, m)) :
    m.rows = ((successFrames inp.readFile inp.dataDir inp.candidates).map
      (fun d => d.rows)).flatten ∧
    m.rows.length = ((successFrames inp.readFile inp.dataDir inp.candidates).map
      (fun d => d.rows.length)).sum := by
  have hm := (combine_written_inv inp p m h).2.1
  subst hm
  constructor
  · rfl
  · simp only [concatFrames, List.length_flatten, List.map_map]
    rfl

/-- The frames used by the C6 witness. -/
def dfC6a : DataFrame := { cols := ["c1"], rows := [["1"], ["2"]] }

/-- Second frame for the C6 witness. -/
def dfC6b : DataFrame := { cols := ["c1"], rows := [["3"]] }

/-- Concrete input for the C6 witness: two readable candidates. -/
def inpC6 : CombineInput :=
  { dataDir := "/data", extChoice := ".csv", candidates := ["a.csv", "b.csv"],
    outNameRaw := "all", overwriteAns := "",
    pathExists := fun _ => false,
    readFile := fun p =>
      if p = "/data/a.csv" then Except.ok dfC6a else Except.ok dfC6b,
    openOk := fun _ => true }

theorem claim_C6_witness :
    (concatFrames (successFrames inpC6.readFile inpC6.dataDir inpC6.candidates)).rows =
      ((successFrames inpC6.readFile inpC6.dataDir inpC6.candidates).map
        (fun d => d.rows)).flatten ∧
    (concatFrames (successFrames inpC6.readFile inpC6.dataDir inpC6.candidates)).rows.length =
      ((successFrames inpC6.readFile inpC6.dataDir inpC6.candidates).map
        (fun d => d.rows.length)).sum :=
  claim_C6 inpC6 "/data/all.csv"
    (concatFrames (successFrames inpC6.readFile inpC6.dataDir inpC6.candidates))
    (by decide)

/-- C7: the merged output file is written in the same directory as the
input files: the path returned on success is the join of the data
directory with the normalized output filename. -/
theorem claim_C7 (inp : CombineInput) (p : String)
    (h : (combine_and_save_files inp).ret = some p) :
    p = osPathJoin inp.dataDir (normalizeOutName inp.extChoice inp.outNameRaw) := by
  by_cases hab : overwriteAborts inp = true
  · rw [combine_eq_abort inp hab] at h
    cases h
  · have hab2 : overwriteAborts inp = false := by
      cases hv : overwriteAborts inp
      · rfl
      · exact absurd hv hab
    rw [combine_no_abort inp hab2] at h
    cases hout : readLoopGo inp.readFile inp.openOk (isTextBranch inp) inp.dataDir
        [] [] [] inp.candidates with
    | aborted att =>
      rw [hout] at h
      simp [finishMerge] at h
    | completed ns ds =>
      rw [hout] at h
      by_cases hds : ds.isEmpty = true
      · simp [finishMerge, hds] at h
      · have hds2 : ds.isEmpty = false := by
          cases hv : ds.isEmpty
          · rfl
          · exact absurd hv hds
        simp only [finishMerge, hds2, Bool.false_eq_true, if_false,
          Option.some.injEq] at h
        rw [← h]
        rfl

/-- Concrete input for the C7 witness. -/
def inpC7 : CombineInput :=
  { dataDir := "/data", extChoice := ".csv", candidates := ["a.csv"],
    outNameRaw := "out", overwriteAns := "",
    pathExists := fun _ => false,
    readFile := fun _ => Except.ok { cols := ["c1"], rows := [["1"]] },
    openOk := fun _ => true }

theorem claim_C7_witness :
    ("/data/out.csv" : String) =
      osPathJoin inpC7.dataDir (normalizeOutName inpC7.extChoice inpC7.outNameRaw) :=
  claim_C7 inpC7 "/data/out.csv" (by decide)

/-- C9: overwrite protection: if the computed output path already exists
and the stripped, lowercased confirmation answer is neither y nor yes,
combine_and_save_files returns None before reading any candidate and
without writing any file. -/
theorem claim_C9 (inp : CombineInput)
    (h1 : inp.pathExists (outPathOf inp) = true)
    (h2 : ansNorm inp.overwriteAns ≠ "y")
    (h3 : ansNorm inp.overwriteAns ≠ "yes") :
    (combine_and_save_files inp).ret = none ∧
    (combine_and_save_files inp).written = none ∧
    (combine_and_save_files inp).readsAttempted = [] := by
  have hnc : yesAnswers.contains (ansNorm inp.overwriteAns) = false := by
    cases hv : yesAnswers.contains (ansNorm inp.overwriteAns)
    · rfl
    · have hm : ansNorm inp.overwriteAns ∈ yesAnswers := by
        simpa using List.mem_of_elem_eq_true hv
      simp only [yesAnswers, List.mem_cons, List.not_mem_nil, or_false] at hm
      rcases hm with hm | hm
      · exact absurd hm h2
      · exact absurd hm h3
  have hab : overwriteAborts inp = true := by
    unfold overwriteAborts
    rw [h1, hnc]
    rfl
  rw [combine_eq_abort inp hab]
  exact ⟨rfl, rfl, rfl⟩

/-- Concrete input for the C9 witness: the output path exists and the
user answers n. -/
def inpC9 : CombineInput :=
  { dataDir := "/data", extChoice := ".csv", candidates := ["a.csv"],
    outNameRaw := "out", overwriteAns := "n",
    pathExists := fun _ => true,
    readFile := fun _ => Except.ok { cols := ["c1"], rows := [["1"]] },
    openOk := fun _ => true }

theorem claim_C9_witness :
    (combine_and_save_files inpC9).ret = none ∧
    (combine_and_save_files inpC9).written = none ∧
    (combine_and_save_files inpC9).readsAttempted = [] :=
  claim_C9 inpC9 rfl (by decide) (by decide)

/-- The final extension fix of lines 82-83 always yields a name that
ends, case-insensitively, with the (lowercased) chosen extension. -/
theorem endsWith_after_fix (ext out1 : String) (hext : pyLower ext = ext) :
    pyEndsWith (pyLower (if pyEndsWith (pyLower out1) ext then out1 else out1 ++ ext))
      ext = true := by
  by_cases hc : pyEndsWith (pyLower out1) ext = true
  · rw [if_pos hc]
    exact hc
  · rw [if_neg hc]
    rw [pyLower_append, hext]
    exact pyEndsWith_append_self _ _

/-- C8: output-filename normalization: a blank entered name becomes
merged plus the chosen extension; an entered name that does not already
end case-insensitively with the chosen extension gets the extension
appended; and the resulting output filename always ends
case-insensitively with the chosen (lowercased) extension. -/
theorem claim_C8 (extChoice rawName : String) :
    (pyStrip rawName = "" →
      normalizeOutName extChoice rawName = "merged" ++ pyLower extChoice) ∧
    (pyStrip rawName ≠ "" →
      pyEndsWith (pyLower (pyStrip rawName)) (pyLower extChoice) = false →
      normalizeOutName extChoice rawName = pyStrip rawName ++ pyLower extChoice) ∧
    pyEndsWith (pyLower (normalizeOutName extChoice rawName)) (pyLower extChoice) = true := by
  refine ⟨?_, ?_, ?_⟩
  · intro h0
    simp only [normalizeOutName]
    rw [if_pos h0]
    rw [if_pos ?_]
    rw [pyLower_append, pyLower_idem]
    have hm : pyLower "merged" = "merged" := by decide
    rw [hm]
    exact pyEndsWith_append_self _ _
  · intro h0 h1
    simp only [normalizeOutName]
    rw [if_neg h0]
    rw [if_neg (by simp [h1])]
  · simp only [normalizeOutName]
    exact endsWith_after_fix (pyLower extChoice) _ (pyLower_idem extChoice)

theorem claim_C8_witness :
    normalizeOutName ".CSV" " report " = "report.csv" ∧
    normalizeOutName ".csv" "" = "merged.csv" ∧
    pyEndsWith (pyLower (normalizeOutName ".CSV" " report ")) (pyLower ".CSV") = true := by
  have h := claim_C8 ".CSV" " report "
  have h2 := h.2.1 (by decide) (by decide)
  have h3 : pyStrip " report " ++ pyLower ".CSV" = "report.csv" := by decide
  have hb := (claim_C8 ".csv" "").1 (by decide)
  have hb2 : ("merged" ++ pyLower ".csv" : String) = "merged.csv" := by decide
  exact ⟨by rw [h2, h3], by rw [hb, hb2], h.2.2⟩

/-- C1 counterexample: the claim that load_data also lists json and
columnar-table files is false on the code: a directory holding only
data.json, b.parquet and .hidden.csv (each a regular file whose
lowercased extension is among the six named by the spec) yields an
empty candidate list. -/
theorem claim_C1_counterexample :
    ("data.json" ∈ ["data.json", "b.parquet", ".hidden.csv"] ∧
      pyLower (fileExt "data.json") = ".json" ∧
      pyLower (fileExt "b.parquet") = ".parquet" ∧
      pyLower (fileExt ".hidden.csv") = ".csv") ∧
    load_data_files ["data.json", "b.parquet", ".hidden.csv"] (fun _ => true) = [] := by
  decide

/-- C1 (amended): load_data supports exactly the extensions .csv, .txt,
.xls and .xlsx: a name is in its candidate list iff it is a listed
regular file whose lowercased extension is one of these four and whose
name starts with neither a tilde-dollar marker nor a dot; in particular
a file whose lowercased extension is .json or .parquet is never a
candidate. -/
theorem claim_C1 (names : List String) (isFile : String → Bool) (fname : String) :
    (fname ∈ load_data_files names isFile ↔
      fname ∈ names ∧ isFile fname = true ∧
        pyLower (fileExt fname) ∈ allowed ∧
        pyStartsWith fname "~$" = false ∧ pyStartsWith fname "." = false) ∧
    (pyLower (fileExt fname) = ".json" ∨ pyLower (fileExt fname) = ".parquet" →
      fname ∉ load_data_files names isFile) := by
  have hiff : fname ∈ load_data_files names isFile ↔
      fname ∈ names ∧ isFile fname = true ∧
        pyLower (fileExt fname) ∈ allowed ∧
        pyStartsWith fname "~$" = false ∧ pyStartsWith fname "." = false := by
    unfold load_data_files pySorted
    rw [List.mem_filter]
    constructor
    · rintro ⟨hmem, hpred⟩
      have hmem2 : fname ∈ names :=
        ((List.perm_insertionSort pyStrLe names).mem_iff).mp hmem
      simp only [Bool.and_eq_true, Bool.not_eq_true'] at hpred
      refine ⟨hmem2, hpred.1, ?_, hpred.2.2.1, hpred.2.2.2⟩
      simpa using List.mem_of_elem_eq_true hpred.2.1
    · rintro ⟨h1, h2, h3, h4, h5⟩
      refine ⟨((List.perm_insertionSort pyStrLe names).mem_iff).mpr h1, ?_⟩
      simp [h2, h4, h5]
      exact h3
  refine ⟨hiff, ?_⟩
  intro hje hmem
  have h3 := (hiff.mp hmem).2.2.1
  rcases hje with hje | hje
  · rw [hje] at h3
    exact absurd h3 (by decide)
  · rw [hje] at h3
    exact absurd h3 (by decide)

theorem claim_C1_witness :
    "b.csv" ∈ load_data_files ["b.csv", "a.json"] (fun _ => true) ∧
    "a.json" ∉ load_data_files ["b.csv", "a.json"] (fun _ => true) :=
  ⟨(claim_C1 ["b.csv", "a.json"] (fun _ => true) "b.csv").1.mpr
      ⟨by decide, rfl, by decide, by decide, by decide⟩,
    (claim_C1 ["b.csv", "a.json"] (fun _ => true) "a.json").2
      (Or.inl (by decide))⟩

/-- C10: file discovery filters hidden and temporary files: every
candidate is a regular file whose name starts with neither a
tilde-dollar marker nor a dot, the candidate list is in sorted filename
order, and an empty candidate list makes load_data return None. -/
theorem claim_C10 (names : List String) (isFile : String → Bool) :
    (∀ fname ∈ load_data_files names isFile,
      isFile fname = true ∧ pyStartsWith fname "~$" = false ∧
        pyStartsWith fname "." = false) ∧
    List.Sorted pyStrLe (load_data_files names isFile) ∧
    (load_data_files names isFile = [] →
      load_data_discovery names isFile = none) := by
  refine ⟨?_, ?_, ?_⟩
  · intro fname hf
    have h := (List.mem_filter.mp hf).2
    simp only [Bool.and_eq_true, Bool.not_eq_true'] at h
    exact ⟨h.1, h.2.2.1, h.2.2.2⟩
  · unfold load_data_files pySorted
    exact (List.sorted_insertionSort pyStrLe names).filter _
  · intro h
    unfold load_data_discovery
    simp [h]

theorem claim_C10_witness :
    ((fun _ : String => true) "b.csv" = true ∧
      pyStartsWith "b.csv" "~$" = false ∧ pyStartsWith "b.csv" "." = false) ∧
    load_data_discovery [".x.csv"] (fun _ => true) = none :=
  ⟨(claim_C10 ["b.csv"] (fun _ => true)).1 "b.csv" (by decide),
    (claim_C10 [".x.csv"] (fun _ => true)).2.2 (by decide)⟩
